import Mathlib

/-!
Shallow embedding of the LegalDiscoveryFhe contract
(src/contracts/Legal_Discovery_Fhe.sol) and verification of its
natural-language specification.

Modelling conventions:
* Addresses, bytes32 words, request ids, timestamps and byte payloads are
  modelled as `Nat`; the zero address is `0`.
* An `euint32` ciphertext handle is modelled by its initialization flag
  together with the underlying 32-bit plaintext; the opaque FHE capability
  (`FHE.asEuint32`, `FHE.eq`, `FHE.add`, `isInitialized`) is given its
  semantic action on these plaintexts.
* `keccak256(abi.encode(cts, address(this)))` is an external primitive and is
  threaded through as an abstract hash `H : List Nat → Addr → Nat` applied to
  the list of ciphertext words and the contract address.  `FHE.checkSignatures`
  is likewise threaded as an abstract verifier `V`.
* `FHE.requestDecryption` returns an oracle-issued fresh request id; the id the
  oracle would return is passed in as the `oracleRequestId` argument.
* Each external function returns `Except Err (ContractState × List Event)`;
  `Except.error` models a revert: no state change and no events.  Solidity
  mappings are total functions with the zero value as default.
* The `open` field of `Batch` is called `isOpen` (`open` is a Lean keyword),
  and `require(cond, "msg")` reverts are modelled by dedicated `Err`
  constructors carrying the message in their name.
-/

namespace LegalDiscoveryFhe

/-- Addresses are modelled as naturals; `0` is the zero address. -/
abbrev Addr := Nat

/-- Model of an `euint32` ciphertext handle: initialization flag and the
underlying 32-bit plaintext. -/
structure Euint32 where
  init : Bool
  val : Nat
deriving DecidableEq

/-- Model of an `ebool` ciphertext handle. -/
structure Ebool where
  init : Bool
  val : Bool
deriving DecidableEq

namespace FHE

/-- Model of `FHE.asEuint32`: a trivial encryption of a plaintext constant. -/
def asEuint32 (n : Nat) : Euint32 := ⟨true, n % 4294967296⟩

/-- Model of `euint32.eq` (used as `encryptedContent.eq(encryptedKeyword)`):
an encrypted boolean whose plaintext is equality of the two plaintexts. -/
def eq (a b : Euint32) : Ebool := ⟨true, a.val == b.val⟩

/-- Model of `euint32.add`: 32-bit wrapping addition of the plaintexts. -/
def add (a b : Euint32) : Euint32 := ⟨true, (a.val + b.val) % 4294967296⟩

/-- Model of `euint32.toBytes32()`: the handle word handed to
`requestDecryption` and to the state hash, identified with the plaintext in
this semantic model. -/
def toBytes32 (a : Euint32) : Nat := a.val

end FHE

/-- Model of the `Batch` struct; the Solidity field `open` is `isOpen` here. -/
structure Batch where
  id : Nat
  isOpen : Bool
deriving DecidableEq

/-- Model of the `Document` struct. -/
structure Document where
  encryptedId : Euint32
  encryptedContent : Euint32
deriving DecidableEq

/-- Model of the `DecryptionContext` struct. -/
structure DecryptionContext where
  batchId : Nat
  stateHash : Nat
  processed : Bool
deriving DecidableEq

/-- Contract storage.  Mappings are total functions returning the Solidity
zero value by default. -/
structure ContractState where
  owner : Addr
  isProvider : Addr → Bool
  paused : Bool
  cooldownSeconds : Nat
  lastSubmissionTime : Addr → Nat
  lastDecryptionRequestTime : Addr → Nat
  currentBatchId : Nat
  batches : Nat → Batch
  batchDocuments : Nat → List Document
  decryptionContexts : Nat → DecryptionContext

/-- Events declared by the contract. -/
inductive Event where
  | OwnershipTransferred (previousOwner newOwner : Addr)
  | ProviderAdded (provider : Addr)
  | ProviderRemoved (provider : Addr)
  | Paused (account : Addr)
  | Unpaused (account : Addr)
  | CooldownSecondsChanged (oldCooldownSeconds newCooldownSeconds : Nat)
  | BatchOpened (batchId : Nat)
  | BatchClosed (batchId : Nat)
  | DocumentSubmitted (provider : Addr) (batchId : Nat) (encryptedId : Euint32)
  | KeywordSearchRequested (requestId batchId : Nat) (encryptedKeyword : Euint32)
  | KeywordSearchCompleted (requestId batchId count : Nat)
deriving DecidableEq

/-- Errors declared by the contract, plus one constructor per
`require(_, "message")` revert (constructor name records the message). -/
inductive Err where
  | NotOwner
  | NotProvider
  | PausedContract
  | CooldownActive
  | BatchClosedOrInvalid
  | InvalidBatchId
  | ReplayAttempt
  | StateMismatch
  | InvalidProof
  | NotInitialized
  | NewOwnerIsZeroAddress
  | ContractNotPaused
  | CooldownMustBePositive
  | NoDocumentsInBatch
deriving DecidableEq

/-- Pointwise update of a Solidity mapping. -/
def upd {α : Type} (m : Nat → α) (k : Nat) (v : α) : Nat → α :=
  fun x => if x = k then v else m x

/-- Model of the internal `_openBatch` helper: stores an open batch record and
emits `BatchOpened`. -/
def _openBatch (s : ContractState) (batchId : Nat) : ContractState × Event :=
  ({ s with batches := upd s.batches batchId ⟨batchId, true⟩ }, Event.BatchOpened batchId)

/-- Model of the constructor: the deployer becomes owner and provider
(`ProviderAdded` emitted), batch 1 is opened and the cooldown defaults to
30 seconds. -/
def deploy (deployer : Addr) : ContractState × List Event :=
  ({ owner := deployer
     isProvider := upd (fun _ => false) deployer true
     paused := false
     cooldownSeconds := 30
     lastSubmissionTime := fun _ => 0
     lastDecryptionRequestTime := fun _ => 0
     currentBatchId := 1
     batches := upd (fun _ => ⟨0, false⟩) 1 ⟨1, true⟩
     batchDocuments := fun _ => []
     decryptionContexts := fun _ => ⟨0, 0, false⟩ },
   [Event.ProviderAdded deployer, Event.BatchOpened 1])

/-- Model of `transferOwnership`. -/
def transferOwnership (sender : Addr) (s : ContractState) (newOwner : Addr) :
    Except Err (ContractState × List Event) :=
  if sender ≠ s.owner then Except.error Err.NotOwner
  else if newOwner = 0 then Except.error Err.NewOwnerIsZeroAddress
  else Except.ok ({ s with owner := newOwner },
                  [Event.OwnershipTransferred s.owner newOwner])

/-- Model of `addProvider`: a no-op (no event) when the actor already has the
provider role. -/
def addProvider (sender : Addr) (s : ContractState) (provider : Addr) :
    Except Err (ContractState × List Event) :=
  if sender ≠ s.owner then Except.error Err.NotOwner
  else if s.isProvider provider = true then Except.ok (s, [])
  else Except.ok ({ s with isProvider := upd s.isProvider provider true },
                  [Event.ProviderAdded provider])

/-- Model of `removeProvider`: a no-op (no event) when the actor already lacks
the provider role. -/
def removeProvider (sender : Addr) (s : ContractState) (provider : Addr) :
    Except Err (ContractState × List Event) :=
  if sender ≠ s.owner then Except.error Err.NotOwner
  else if s.isProvider provider = false then Except.ok (s, [])
  else Except.ok ({ s with isProvider := upd s.isProvider provider false },
                  [Event.ProviderRemoved provider])

/-- Model of `pause` (modifier order: `onlyOwner` then `whenNotPaused`). -/
def pause (sender : Addr) (s : ContractState) : Except Err (ContractState × List Event) :=
  if sender ≠ s.owner then Except.error Err.NotOwner
  else if s.paused = true then Except.error Err.PausedContract
  else Except.ok ({ s with paused := true }, [Event.Paused sender])

/-- Model of `unpause`. -/
def unpause (sender : Addr) (s : ContractState) : Except Err (ContractState × List Event) :=
  if sender ≠ s.owner then Except.error Err.NotOwner
  else if s.paused = false then Except.error Err.ContractNotPaused
  else Except.ok ({ s with paused := false }, [Event.Unpaused sender])

/-- Model of `setCooldownSeconds`. -/
def setCooldownSeconds (sender : Addr) (s : ContractState) (newCooldownSeconds : Nat) :
    Except Err (ContractState × List Event) :=
  if sender ≠ s.owner then Except.error Err.NotOwner
  else if newCooldownSeconds = 0 then Except.error Err.CooldownMustBePositive
  else Except.ok ({ s with cooldownSeconds := newCooldownSeconds },
                  [Event.CooldownSecondsChanged s.cooldownSeconds newCooldownSeconds])

/-- Model of `openNewBatch` (modifiers `onlyOwner whenNotPaused`): increments
`currentBatchId` and opens the new batch; the previous batch record is not
touched. -/
def openNewBatch (sender : Addr) (s : ContractState) :
    Except Err (ContractState × List Event) :=
  if sender ≠ s.owner then Except.error Err.NotOwner
  else if s.paused = true then Except.error Err.PausedContract
  else Except.ok
    ({ s with
        currentBatchId := s.currentBatchId + 1
        batches := upd s.batches (s.currentBatchId + 1) ⟨s.currentBatchId + 1, true⟩ },
     [Event.BatchOpened (s.currentBatchId + 1)])

/-- Model of `closeCurrentBatch`: flips the current batch closed and emits
`BatchClosed`, or succeeds silently if it is already closed. -/
def closeCurrentBatch (sender : Addr) (s : ContractState) :
    Except Err (ContractState × List Event) :=
  if sender ≠ s.owner then Except.error Err.NotOwner
  else if s.paused = true then Except.error Err.PausedContract
  else if (s.batches s.currentBatchId).isOpen = true then
    Except.ok
      ({ s with batches := upd s.batches s.currentBatchId
                  ⟨(s.batches s.currentBatchId).id, false⟩ },
       [Event.BatchClosed s.currentBatchId])
  else Except.ok (s, [])

/-- Model of `submitDocument`.  Modifier order as written in the source:
`onlyProvider`, then `whenNotPaused`, then `checkSubmissionCooldown`; then the
`_initIfNeeded` body checks, then the batch-open check. -/
def submitDocument (sender : Addr) (now : Nat) (s : ContractState)
    (encryptedId encryptedContent : Euint32) :
    Except Err (ContractState × List Event) :=
  if s.isProvider sender = false then Except.error Err.NotProvider
  else if s.paused = true then Except.error Err.PausedContract
  else if now < s.lastSubmissionTime sender + s.cooldownSeconds then
    Except.error Err.CooldownActive
  else if encryptedId.init = false then Except.error Err.NotInitialized
  else if encryptedContent.init = false then Except.error Err.NotInitialized
  else if (s.batches s.currentBatchId).isOpen = false then
    Except.error Err.BatchClosedOrInvalid
  else Except.ok
    ({ s with
        batchDocuments := upd s.batchDocuments s.currentBatchId
          (s.batchDocuments s.currentBatchId ++ [⟨encryptedId, encryptedContent⟩])
        lastSubmissionTime := upd s.lastSubmissionTime sender now },
     [Event.DocumentSubmitted sender s.currentBatchId encryptedId])

/-- Loop body of the search in `searchKeywordInBatch`: encrypted equality of
document content with the keyword, the 0/1 selection, and the homomorphic
addition into the accumulator. -/
def searchStep (encryptedKeyword acc : Euint32) (d : Document) : Euint32 :=
  FHE.add acc
    (if (FHE.eq d.encryptedContent encryptedKeyword).val = true then FHE.asEuint32 1
     else FHE.asEuint32 0)

/-- Accumulator produced by the loop of `searchKeywordInBatch`: starting from
`FHE.asEuint32 0`, fold `searchStep` over the documents in insertion order. -/
def encryptedCountOf (docs : List Document) (encryptedKeyword : Euint32) : Euint32 :=
  docs.foldl (searchStep encryptedKeyword) (FHE.asEuint32 0)

/-- Model of the internal `_hashCiphertexts` helper:
`keccak256(abi.encode(cts, address(this)))` with the abstract hash `H`. -/
def _hashCiphertexts (H : List Nat → Addr → Nat) (self : Addr) (cts : List Nat) : Nat :=
  H cts self

/-- Model of `searchKeywordInBatch`.  Modifier order as in the source:
`onlyProvider`, `whenNotPaused`, `checkDecryptionCooldown`; then
`_initIfNeeded(encryptedKeyword)`, the batch validity check, the empty-batch
check, the accumulation loop, the state hash over the single ciphertext word,
the oracle request (whose fresh id is `oracleRequestId`), and registration of
the decryption context. -/
def searchKeywordInBatch (H : List Nat → Addr → Nat) (self : Addr)
    (sender : Addr) (now : Nat) (oracleRequestId : Nat) (s : ContractState)
    (batchId : Nat) (encryptedKeyword : Euint32) :
    Except Err (ContractState × List Event) :=
  if s.isProvider sender = false then Except.error Err.NotProvider
  else if s.paused = true then Except.error Err.PausedContract
  else if now < s.lastDecryptionRequestTime sender + s.cooldownSeconds then
    Except.error Err.CooldownActive
  else if encryptedKeyword.init = false then Except.error Err.NotInitialized
  else if batchId = 0 ∨ s.currentBatchId < batchId ∨ (s.batches batchId).isOpen = false then
    Except.error Err.InvalidBatchId
  else if (s.batchDocuments batchId).length = 0 then
    Except.error Err.NoDocumentsInBatch
  else Except.ok
    ({ s with
        decryptionContexts := upd s.decryptionContexts oracleRequestId
          ⟨batchId,
           _hashCiphertexts H self
             [FHE.toBytes32 (encryptedCountOf (s.batchDocuments batchId) encryptedKeyword)],
           false⟩
        lastDecryptionRequestTime := upd s.lastDecryptionRequestTime sender now },
     [Event.KeywordSearchRequested oracleRequestId batchId encryptedKeyword])

/-- Model of `myCallback`.  The source rebuilds `cts` as `new bytes32[](1)`,
a one-element array holding `bytes32(0)`, modelled as `[0]`; the stored
`stateHash` is compared against `keccak256(abi.encode(cts, address(this)))`
over that placeholder.  `abi.decode(cleartexts, (uint256))` is the identity on
the `Nat` payload, and `FHE.checkSignatures` is the abstract verifier `V`. -/
def myCallback (H : List Nat → Addr → Nat) (V : Nat → Nat → Nat → Bool)
    (self : Addr) (s : ContractState) (requestId cleartexts proof : Nat) :
    Except Err (ContractState × List Event) :=
  if (s.decryptionContexts requestId).processed = true then Except.error Err.ReplayAttempt
  else if (s.decryptionContexts requestId).stateHash ≠ H [0] self then
    Except.error Err.StateMismatch
  else if V requestId cleartexts proof = false then Except.error Err.InvalidProof
  else Except.ok
    ({ s with
        decryptionContexts := upd s.decryptionContexts requestId
          ⟨(s.decryptionContexts requestId).batchId,
           (s.decryptionContexts requestId).stateHash, true⟩ },
     [Event.KeywordSearchCompleted requestId
        (s.decryptionContexts requestId).batchId cleartexts])

/-- Sample concrete hash standing in for keccak256 in closed witnesses. -/
def sampleHash (cts : List Nat) (self : Addr) : Nat :=
  cts.foldl (fun a c => a * 1000003 + c + 1) (self + 1)

/-- Sample signature verifier accepting everything, for closed witnesses. -/
def sampleVerify (_requestId _cleartexts _proof : Nat) : Bool := true

/-- Concrete documents whose plaintext contents are 5, 7, 5. -/
def docs575 : List Document :=
  [⟨FHE.asEuint32 10, FHE.asEuint32 5⟩,
   ⟨FHE.asEuint32 11, FHE.asEuint32 7⟩,
   ⟨FHE.asEuint32 12, FHE.asEuint32 5⟩]

/-- Concrete state for witnesses: owner and provider 3, batch 1 open and
holding `docs575`, cooldown 30, no pending decryption contexts. -/
def sampleState : ContractState :=
  { owner := 3
    isProvider := fun a => a == 3
    paused := false
    cooldownSeconds := 30
    lastSubmissionTime := fun _ => 0
    lastDecryptionRequestTime := fun _ => 0
    currentBatchId := 1
    batches := fun b => if b = 1 then ⟨1, true⟩ else ⟨0, false⟩
    batchDocuments := fun b => if b = 1 then docs575 else []
    decryptionContexts := fun _ => ⟨0, 0, false⟩ }

/-- Result of a concrete search on `sampleState`: provider 3, query 5,
batch 1, oracle request id 42, contract address 7, time 100. -/
def sampleSearch : Except Err (ContractState × List Event) :=
  searchKeywordInBatch sampleHash 7 3 100 42 sampleState 1 (FHE.asEuint32 5)

/-- State component of `sampleSearch`. -/
def sampleSearchState : ContractState :=
  match sampleSearch with
  | Except.ok (st, _) => st
  | Except.error _ => sampleState

/-- Event component of `sampleSearch`. -/
def sampleSearchEvents : List Event :=
  match sampleSearch with
  | Except.ok (_, ev) => ev
  | Except.error _ => []

/-- Concrete state holding an already-processed decryption context. -/
def processedState : ContractState :=
  { sampleState with
      decryptionContexts := upd sampleState.decryptionContexts 42 ⟨1, 8000027, true⟩ }

/-- Concrete paused state. -/
def pausedState : ContractState := { sampleState with paused := true }

/-- Concrete state with an open current batch holding no documents. -/
def emptyBatchState : ContractState :=
  { sampleState with batchDocuments := fun _ => [] }

/-- Concrete state where both 3 and 4 hold the provider role. -/
def providerState : ContractState :=
  { sampleState with isProvider := fun a => a == 3 || a == 4 }

/-- Helper: the plaintext of the running accumulator after folding
`searchStep` is the starting plaintext plus the number of matching documents,
modulo 2^32. -/
theorem foldl_searchStep_val (kw : Euint32) :
    ∀ (docs : List Document) (acc : Euint32), acc.val < 4294967296 →
      (docs.foldl (searchStep kw) acc).val
        = (acc.val + docs.countP (fun d => d.encryptedContent.val == kw.val)) % 4294967296 := by
  intro docs
  induction docs with
  | nil =>
      intro acc h
      simp [Nat.mod_eq_of_lt h]
  | cons d ds ih =>
      intro acc h
      have hstep : (searchStep kw acc d).val < 4294967296 := by
        simp only [searchStep, FHE.add]
        exact Nat.mod_lt _ (by norm_num)
      rw [List.foldl_cons, ih _ hstep]
      simp only [searchStep, FHE.add, FHE.eq, FHE.asEuint32, List.countP_cons,
        Nat.mod_add_mod]
      by_cases hm : d.encryptedContent.val = kw.val
      · simp [hm]
        omega
      · simp [hm]

/-- C2: the accumulator produced by the loop of `searchKeywordInBatch` —
encrypted zero, then for each document in insertion order the 0/1 encoding of
(content equals keyword) added homomorphically — has underlying plaintext
equal to the number of documents whose plaintext content equals the keyword's
plaintext, whenever that count fits in 32 bits. -/
theorem search_accumulator_counts_matching_documents
    (docs : List Document) (kw : Euint32)
    (h : docs.countP (fun d => d.encryptedContent.val == kw.val) < 4294967296) :
    (encryptedCountOf docs kw).val
      = docs.countP (fun d => d.encryptedContent.val == kw.val) := by
  unfold encryptedCountOf
  rw [foldl_searchStep_val kw docs (FHE.asEuint32 0) (by simp [FHE.asEuint32])]
  simp [FHE.asEuint32]
  omega

/-- C2 witness: on plaintext contents {5, 7, 5}, query 5 matches exactly the
2 matching documents and the accumulator plaintext is 2; query 9 yields 0. -/
theorem search_accumulator_counts_witness :
    docs575.countP (fun d => d.encryptedContent.val == (FHE.asEuint32 5).val) < 4294967296 ∧
    (encryptedCountOf docs575 (FHE.asEuint32 5)).val
      = docs575.countP (fun d => d.encryptedContent.val == (FHE.asEuint32 5).val) ∧
    (encryptedCountOf docs575 (FHE.asEuint32 5)).val = 2 ∧
    (encryptedCountOf docs575 (FHE.asEuint32 9)).val = 0 :=
  ⟨by decide,
   search_accumulator_counts_matching_documents docs575 (FHE.asEuint32 5) (by decide),
   by decide, by decide⟩

/-- C3 counterexample: with no stored context for request id 5 (mapping
default), `myCallback` fails with `StateMismatch` — the integrity error — and
not with a NotFound error; the contract declares no NotFound error at all. -/
theorem unknown_request_not_notfound_counterexample :
    myCallback sampleHash sampleVerify 7 sampleState 5 0 0
      = Except.error Err.StateMismatch := rfl

/-- C3 amended: for a request id with no stored context (the mapping default
record), `myCallback` fails with `StateMismatch`, because the default zero
`stateHash` never equals the recomputed placeholder hash (nonzero for
keccak256); the revert leaves no state mutated. -/
theorem unknown_request_fails_with_state_mismatch
    (H : List Nat → Addr → Nat) (V : Nat → Nat → Nat → Bool)
    (self requestId cleartexts proof : Nat) (s : ContractState)
    (habsent : s.decryptionContexts requestId = ⟨0, 0, false⟩)
    (hH : H [0] self ≠ 0) :
    myCallback H V self s requestId cleartexts proof
      = Except.error Err.StateMismatch := by
  unfold myCallback
  rw [habsent]
  simp [Ne.symm hH]

/-- C3 witness: concrete unknown request id 5 on `sampleState`. -/
theorem unknown_request_fails_witness :
    sampleState.decryptionContexts 5 = ⟨0, 0, false⟩ ∧
    sampleHash [0] 7 ≠ 0 ∧
    myCallback sampleHash sampleVerify 7 sampleState 5 0 0
      = Except.error Err.StateMismatch :=
  ⟨rfl, by decide,
   unknown_request_fails_with_state_mismatch sampleHash sampleVerify 7 5 0 0
     sampleState rfl (by decide)⟩

/-- C4: once a stored decryption context is `processed`, any further
`myCallback` for that request id fails with `ReplayAttempt` (a revert, so no
state is mutated and the recorded result stands), and no successful callback
ever resets a `processed` flag to false. -/
theorem replay_rejected_and_processed_monotone
    (H : List Nat → Addr → Nat) (V : Nat → Nat → Nat → Bool)
    (self requestId cleartexts proof : Nat) (s : ContractState)
    (hproc : (s.decryptionContexts requestId).processed = true) :
    myCallback H V self s requestId cleartexts proof
      = Except.error Err.ReplayAttempt ∧
    (∀ (r : Nat) (s' : ContractState) (ev : List Event),
        myCallback H V self s r cleartexts proof = Except.ok (s', ev) →
        (s'.decryptionContexts requestId).processed = true) := by
  constructor
  · simp [myCallback, hproc]
  · intro r s' ev h
    unfold myCallback at h
    split at h
    · simp at h
    split at h
    · simp at h
    split at h
    · simp at h
    simp only [Except.ok.injEq, Prod.mk.injEq] at h
    obtain ⟨h1, h2⟩ := h
    subst h1
    by_cases hr : requestId = r
    · simp [upd, hr]
    · simp [upd, hr, hproc]

/-- C4 witness: concrete already-processed context for request id 42. -/
theorem replay_rejected_witness :
    (processedState.decryptionContexts 42).processed = true ∧
    myCallback sampleHash sampleVerify 7 processedState 42 2 0
      = Except.error Err.ReplayAttempt :=
  ⟨rfl,
   (replay_rejected_and_processed_monotone sampleHash sampleVerify 7 42 2 0
      processedState rfl).1⟩

/-- C5 counterexample: with the system paused and caller 9 not a provider,
`submitDocument` fails with the authorization error `NotProvider`, not with
`PausedContract` as the claimed not-paused-first check order would demand. -/
theorem paused_unauthorized_error_counterexample :
    submitDocument 9 100 pausedState (FHE.asEuint32 1) (FHE.asEuint32 1)
      = Except.error Err.NotProvider ∧
    Err.NotProvider ≠ Err.PausedContract :=
  ⟨rfl, by decide⟩

/-- C5 amended: the gated entry points check caller-authorized first, then
not-paused, then cooldown, then domain preconditions (each failing check
reverts, leaving no partial effect); in particular a paused system with an
unauthorized caller yields the authorization error. -/
theorem guard_order_role_before_paused :
    (∀ (sender now : Nat) (s : ContractState) (a b : Euint32),
        s.isProvider sender = false →
        submitDocument sender now s a b = Except.error Err.NotProvider) ∧
    (∀ (sender now : Nat) (s : ContractState) (a b : Euint32),
        s.isProvider sender = true → s.paused = true →
        submitDocument sender now s a b = Except.error Err.PausedContract) ∧
    (∀ (sender now : Nat) (s : ContractState) (a b : Euint32),
        s.isProvider sender = true → s.paused = false →
        now < s.lastSubmissionTime sender + s.cooldownSeconds →
        submitDocument sender now s a b = Except.error Err.CooldownActive) ∧
    (∀ (H : List Nat → Addr → Nat) (self sender now rid batchId : Nat)
        (s : ContractState) (kw : Euint32),
        s.isProvider sender = false →
        searchKeywordInBatch H self sender now rid s batchId kw
          = Except.error Err.NotProvider) ∧
    (∀ (H : List Nat → Addr → Nat) (self sender now rid batchId : Nat)
        (s : ContractState) (kw : Euint32),
        s.isProvider sender = true → s.paused = true →
        searchKeywordInBatch H self sender now rid s batchId kw
          = Except.error Err.PausedContract) ∧
    (∀ (H : List Nat → Addr → Nat) (self sender now rid batchId : Nat)
        (s : ContractState) (kw : Euint32),
        s.isProvider sender = true → s.paused = false →
        now < s.lastDecryptionRequestTime sender + s.cooldownSeconds →
        searchKeywordInBatch H self sender now rid s batchId kw
          = Except.error Err.CooldownActive) ∧
    (∀ (sender : Nat) (s : ContractState), sender ≠ s.owner →
        openNewBatch sender s = Except.error Err.NotOwner) ∧
    (∀ (sender : Nat) (s : ContractState), sender = s.owner → s.paused = true →
        openNewBatch sender s = Except.error Err.PausedContract) ∧
    (∀ (sender : Nat) (s : ContractState), sender ≠ s.owner →
        closeCurrentBatch sender s = Except.error Err.NotOwner) ∧
    (∀ (sender : Nat) (s : ContractState), sender = s.owner → s.paused = true →
        closeCurrentBatch sender s = Except.error Err.PausedContract) := by
  refine ⟨?_, ?_, ?_, ?_, ?_, ?_, ?_, ?_, ?_, ?_⟩
  · intro sender now s a b hp
    simp [submitDocument, hp]
  · intro sender now s a b hp hq
    simp [submitDocument, hp, hq]
  · intro sender now s a b hp hq hcd
    simp [submitDocument, hp, hq, hcd]
  · intro H self sender now rid batchId s kw hp
    simp [searchKeywordInBatch, hp]
  · intro H self sender now rid batchId s kw hp hq
    simp [searchKeywordInBatch, hp, hq]
  · intro H self sender now rid batchId s kw hp hq hcd
    simp [searchKeywordInBatch, hp, hq, hcd]
  · intro sender s h
    simp [openNewBatch, h]
  · intro sender s h hq
    subst h
    simp [openNewBatch, hq]
  · intro sender s h
    simp [closeCurrentBatch, h]
  · intro sender s h hq
    subst h
    simp [closeCurrentBatch, hq]

/-- C5 witness: concrete paused state; unauthorized caller 9 gets
`NotProvider`, authorized caller 3 gets `PausedContract`, for both
`submitDocument` and `searchKeywordInBatch`. -/
theorem guard_order_witness :
    pausedState.isProvider 9 = false ∧ pausedState.paused = true ∧
    submitDocument 9 100 pausedState (FHE.asEuint32 1) (FHE.asEuint32 1)
      = Except.error Err.NotProvider ∧
    pausedState.isProvider 3 = true ∧
    submitDocument 3 100 pausedState (FHE.asEuint32 1) (FHE.asEuint32 1)
      = Except.error Err.PausedContract ∧
    searchKeywordInBatch sampleHash 7 3 100 42 pausedState 1 (FHE.asEuint32 5)
      = Except.error Err.PausedContract :=
  ⟨rfl, rfl,
   guard_order_role_before_paused.1 9 100 pausedState _ _ rfl,
   rfl,
   guard_order_role_before_paused.2.1 3 100 pausedState _ _ rfl rfl,
   guard_order_role_before_paused.2.2.2.2.1 sampleHash 7 3 100 42 1 pausedState _ rfl rfl⟩

/-- C1 (against the claim): after any successful `searchKeywordInBatch`, with
the bound ciphertext handle unchanged, the very next `myCallback` for that
request fails with `StateMismatch` whenever the hash of the bound handle
differs from the hash of the `new bytes32[](1)` placeholder — because the
callback recomputes the expected hash from the placeholder array, not from
the handle the request was bound to. -/
theorem callback_rejects_unchanged_request
    (H : List Nat → Addr → Nat) (V : Nat → Nat → Nat → Bool)
    (self sender now rid batchId cleartexts proof : Nat)
    (s s' : ContractState) (ev : List Event) (kw : Euint32)
    (hsearch : searchKeywordInBatch H self sender now rid s batchId kw
      = Except.ok (s', ev))
    (hne : H [FHE.toBytes32 (encryptedCountOf (s.batchDocuments batchId) kw)] self
      ≠ H [0] self) :
    myCallback H V self s' rid cleartexts proof = Except.error Err.StateMismatch := by
  unfold searchKeywordInBatch at hsearch
  split at hsearch
  · simp at hsearch
  split at hsearch
  · simp at hsearch
  split at hsearch
  · simp at hsearch
  split at hsearch
  · simp at hsearch
  split at hsearch
  · simp at hsearch
  split at hsearch
  · simp at hsearch
  simp only [Except.ok.injEq, Prod.mk.injEq] at hsearch
  obtain ⟨h1, h2⟩ := hsearch
  subst h1
  simp [myCallback, upd, _hashCiphertexts, hne]

/-- C1 witness: concrete round: search on `sampleState` (batch 1, contents
{5, 7, 5}, query 5, request id 42, address 7), ciphertext untouched, callback
with the correct count 2 and an accepting verifier still reverts with
`StateMismatch`. -/
theorem callback_rejects_unchanged_request_witness :
    myCallback sampleHash sampleVerify 7 sampleSearchState 42 2 0
      = Except.error Err.StateMismatch :=
  callback_rejects_unchanged_request sampleHash sampleVerify 7 3 100 42 1 2 0
    sampleState sampleSearchState sampleSearchEvents (FHE.asEuint32 5)
    rfl (by decide)

/-- C6: a search against an existing, open batch with zero documents fails
with the dedicated empty-batch validation revert (not an empty-result
success), so no pending decryption context is registered and no oracle
request is issued. -/
theorem empty_batch_search_rejected
    (H : List Nat → Addr → Nat) (self sender now rid batchId : Nat)
    (s : ContractState) (kw : Euint32)
    (hp : s.isProvider sender = true) (hq : s.paused = false)
    (hcd : ¬ now < s.lastDecryptionRequestTime sender + s.cooldownSeconds)
    (hkw : kw.init = true)
    (hb0 : batchId ≠ 0) (hble : ¬ s.currentBatchId < batchId)
    (hopen : (s.batches batchId).isOpen = true)
    (hempty : (s.batchDocuments batchId).length = 0) :
    searchKeywordInBatch H self sender now rid s batchId kw
      = Except.error Err.NoDocumentsInBatch := by
  simp [searchKeywordInBatch, hp, hq, hcd, hkw, hb0, hble, hopen, hempty]

/-- C6 witness: concrete open batch 1 with no documents. -/
theorem empty_batch_search_rejected_witness :
    emptyBatchState.isProvider 3 = true ∧
    (emptyBatchState.batches 1).isOpen = true ∧
    (emptyBatchState.batchDocuments 1).length = 0 ∧
    searchKeywordInBatch sampleHash 7 3 100 42 emptyBatchState 1 (FHE.asEuint32 5)
      = Except.error Err.NoDocumentsInBatch :=
  ⟨rfl, rfl, rfl,
   empty_batch_search_rejected sampleHash 7 3 100 42 1 emptyBatchState
     (FHE.asEuint32 5) rfl rfl (by decide) rfl (by decide) (by decide) rfl rfl⟩

/-- C7: a successful `openNewBatch` leaves the previous current batch record
(including its open flag) untouched — so if it was open, old and new batch are
open simultaneously — and changes only `currentBatchId` and the new batch
entry, emitting `BatchOpened`. -/
theorem open_new_batch_preserves_previous (sender : Addr)
    (s s' : ContractState) (ev : List Event)
    (h : openNewBatch sender s = Except.ok (s', ev)) :
    s'.currentBatchId = s.currentBatchId + 1 ∧
    s'.batches s.currentBatchId = s.batches s.currentBatchId ∧
    s'.batches (s.currentBatchId + 1) = ⟨s.currentBatchId + 1, true⟩ ∧
    ((s.batches s.currentBatchId).isOpen = true →
      (s'.batches s.currentBatchId).isOpen = true ∧
      (s'.batches s'.currentBatchId).isOpen = true) ∧
    (∀ b, b ≠ s.currentBatchId + 1 → s'.batches b = s.batches b) ∧
    s'.owner = s.owner ∧ s'.isProvider = s.isProvider ∧ s'.paused = s.paused ∧
    s'.cooldownSeconds = s.cooldownSeconds ∧
    s'.lastSubmissionTime = s.lastSubmissionTime ∧
    s'.lastDecryptionRequestTime = s.lastDecryptionRequestTime ∧
    s'.batchDocuments = s.batchDocuments ∧
    s'.decryptionContexts = s.decryptionContexts ∧
    ev = [Event.BatchOpened (s.currentBatchId + 1)] := by
  unfold openNewBatch at h
  split at h
  · simp at h
  split at h
  · simp at h
  simp only [Except.ok.injEq, Prod.mk.injEq] at h
  obtain ⟨h1, h2⟩ := h
  subst h1
  subst h2
  refine ⟨rfl, ?_, ?_, ?_, ?_, rfl, rfl, rfl, rfl, rfl, rfl, rfl, rfl, rfl⟩
  · simp [upd]
  · simp [upd]
  · intro ho
    refine ⟨?_, ?_⟩
    · simpa [upd] using ho
    · simp [upd]
  · intro b hb
    simp [upd, hb]

/-- Result of a concrete `openNewBatch` on `sampleState` by owner 3. -/
def openRes : Except Err (ContractState × List Event) := openNewBatch 3 sampleState

/-- State component of `openRes`. -/
def openResState : ContractState :=
  match openRes with
  | Except.ok (st, _) => st
  | Except.error _ => sampleState

/-- Event component of `openRes`. -/
def openResEvents : List Event :=
  match openRes with
  | Except.ok (_, ev) => ev
  | Except.error _ => []

/-- C7 witness: opening batch 2 while batch 1 is open leaves both open. -/
theorem open_new_batch_witness :
    (openResState.batches 1).isOpen = true ∧ (openResState.batches 2).isOpen = true :=
  (open_new_batch_preserves_previous 3 sampleState openResState openResEvents
    rfl).2.2.2.1 rfl

/-- C8: the two cooldown-gated calls reject with `CooldownActive` while
`now < last[actor] + cooldownSeconds`, and on success update `last[actor]` to
`now` in the same atomic step as the gated action (document appended, or the
fresh unprocessed decryption context registered); a revert performs no update
at all. -/
theorem cooldown_gating_and_update (H : List Nat → Addr → Nat) :
    (∀ (sender now : Nat) (s : ContractState) (a b : Euint32),
        s.isProvider sender = true → s.paused = false →
        now < s.lastSubmissionTime sender + s.cooldownSeconds →
        submitDocument sender now s a b = Except.error Err.CooldownActive) ∧
    (∀ (sender now : Nat) (s : ContractState) (a b : Euint32)
        (s' : ContractState) (ev : List Event),
        submitDocument sender now s a b = Except.ok (s', ev) →
        s'.lastSubmissionTime sender = now ∧
        s'.batchDocuments s.currentBatchId
          = s.batchDocuments s.currentBatchId ++ [⟨a, b⟩]) ∧
    (∀ (self sender now rid batchId : Nat) (s : ContractState) (kw : Euint32),
        s.isProvider sender = true → s.paused = false →
        now < s.lastDecryptionRequestTime sender + s.cooldownSeconds →
        searchKeywordInBatch H self sender now rid s batchId kw
          = Except.error Err.CooldownActive) ∧
    (∀ (self sender now rid batchId : Nat) (s : ContractState) (kw : Euint32)
        (s' : ContractState) (ev : List Event),
        searchKeywordInBatch H self sender now rid s batchId kw = Except.ok (s', ev) →
        s'.lastDecryptionRequestTime sender = now ∧
        (s'.decryptionContexts rid).processed = false) := by
  refine ⟨?_, ?_, ?_, ?_⟩
  · intro sender now s a b hp hq hcd
    simp [submitDocument, hp, hq, hcd]
  · intro sender now s a b s' ev h
    unfold submitDocument at h
    split at h
    · simp at h
    split at h
    · simp at h
    split at h
    · simp at h
    split at h
    · simp at h
    split at h
    · simp at h
    split at h
    · simp at h
    simp only [Except.ok.injEq, Prod.mk.injEq] at h
    obtain ⟨h1, h2⟩ := h
    subst h1
    exact ⟨by simp [upd], by simp [upd]⟩
  · intro self sender now rid batchId s kw hp hq hcd
    simp [searchKeywordInBatch, hp, hq, hcd]
  · intro self sender now rid batchId s kw s' ev h
    unfold searchKeywordInBatch at h
    split at h
    · simp at h
    split at h
    · simp at h
    split at h
    · simp at h
    split at h
    · simp at h
    split at h
    · simp at h
    split at h
    · simp at h
    simp only [Except.ok.injEq, Prod.mk.injEq] at h
    obtain ⟨h1, h2⟩ := h
    subst h1
    exact ⟨by simp [upd], by simp [upd]⟩

/-- Result of a concrete successful `submitDocument` on `sampleState`. -/
def submitRes : Except Err (ContractState × List Event) :=
  submitDocument 3 100 sampleState (FHE.asEuint32 1) (FHE.asEuint32 2)

/-- State component of `submitRes`. -/
def submitResState : ContractState :=
  match submitRes with
  | Except.ok (st, _) => st
  | Except.error _ => sampleState

/-- Event component of `submitRes`. -/
def submitResEvents : List Event :=
  match submitRes with
  | Except.ok (_, ev) => ev
  | Except.error _ => []

/-- C8 witness: at time 10 (cooldown 30, last 0) submission is rejected with
`CooldownActive`; the successful submission at time 100 records 100 as the
actor's last submission time. -/
theorem cooldown_witness :
    submitDocument 3 10 sampleState (FHE.asEuint32 1) (FHE.asEuint32 2)
      = Except.error Err.CooldownActive ∧
    submitResState.lastSubmissionTime 3 = 100 :=
  ⟨(cooldown_gating_and_update sampleHash).1 3 10 sampleState _ _ rfl rfl (by decide),
   ((cooldown_gating_and_update sampleHash).2.1 3 100 sampleState (FHE.asEuint32 1)
      (FHE.asEuint32 2) submitResState submitResEvents rfl).1⟩

/-- C9 counterexample: actor 4 already holds the provider role; the owner's
`addProvider 4` returns successfully with the state unchanged and emits no
notification, contradicting the claim that every successful call emits one. -/
theorem add_existing_provider_no_event_counterexample :
    providerState.isProvider 4 = true ∧
    addProvider 3 providerState 4 = Except.ok (providerState, []) :=
  ⟨rfl, rfl⟩

/-- C9 amended: `addProvider`/`removeProvider` emit their notification exactly
when the role actually changes, and succeed silently (no event, no state
change) when the actor already had or already lacked the role; the other
AccessControl operations emit their before/after notification on every
success. -/
theorem role_change_notifications :
    (∀ (sender : Nat) (s : ContractState) (p : Addr),
        sender = s.owner → s.isProvider p = false →
        ∃ s', addProvider sender s p = Except.ok (s', [Event.ProviderAdded p]) ∧
          s'.isProvider p = true) ∧
    (∀ (sender : Nat) (s : ContractState) (p : Addr),
        sender = s.owner → s.isProvider p = true →
        addProvider sender s p = Except.ok (s, [])) ∧
    (∀ (sender : Nat) (s : ContractState) (p : Addr),
        sender = s.owner → s.isProvider p = true →
        ∃ s', removeProvider sender s p = Except.ok (s', [Event.ProviderRemoved p]) ∧
          s'.isProvider p = false) ∧
    (∀ (sender : Nat) (s : ContractState) (p : Addr),
        sender = s.owner → s.isProvider p = false →
        removeProvider sender s p = Except.ok (s, [])) ∧
    (∀ (sender : Nat) (s : ContractState) (newOwner : Addr),
        sender = s.owner → newOwner ≠ 0 →
        ∃ s', transferOwnership sender s newOwner
            = Except.ok (s', [Event.OwnershipTransferred s.owner newOwner]) ∧
          s'.owner = newOwner) ∧
    (∀ (sender : Nat) (s : ContractState),
        sender = s.owner → s.paused = false →
        ∃ s', pause sender s = Except.ok (s', [Event.Paused sender]) ∧
          s'.paused = true) ∧
    (∀ (sender : Nat) (s : ContractState),
        sender = s.owner → s.paused = true →
        ∃ s', unpause sender s = Except.ok (s', [Event.Unpaused sender]) ∧
          s'.paused = false) ∧
    (∀ (sender : Nat) (s : ContractState) (n : Nat),
        sender = s.owner → n ≠ 0 →
        ∃ s', setCooldownSeconds sender s n
            = Except.ok (s', [Event.CooldownSecondsChanged s.cooldownSeconds n]) ∧
          s'.cooldownSeconds = n) := by
  refine ⟨?_, ?_, ?_, ?_, ?_, ?_, ?_, ?_⟩
  · intro sender s p h hp
    subst h
    refine ⟨{ s with isProvider := upd s.isProvider p true }, ?_, ?_⟩
    · simp [addProvider, hp]
    · simp [upd]
  · intro sender s p h hp
    subst h
    simp [addProvider, hp]
  · intro sender s p h hp
    subst h
    refine ⟨{ s with isProvider := upd s.isProvider p false }, ?_, ?_⟩
    · simp [removeProvider, hp]
    · simp [upd]
  · intro sender s p h hp
    subst h
    simp [removeProvider, hp]
  · intro sender s newOwner h hn
    subst h
    refine ⟨{ s with owner := newOwner }, ?_, rfl⟩
    simp [transferOwnership, hn]
  · intro sender s h hq
    subst h
    refine ⟨{ s with paused := true }, ?_, rfl⟩
    simp [pause, hq]
  · intro sender s h hq
    subst h
    refine ⟨{ s with paused := false }, ?_, rfl⟩
    simp [unpause, hq]
  · intro sender s n h hn
    subst h
    refine ⟨{ s with cooldownSeconds := n }, ?_, rfl⟩
    simp [setCooldownSeconds, hn]

/-- C9 witness: concrete no-event success on an existing provider, and
concrete notifications when the role does change. -/
theorem role_change_notifications_witness :
    providerState.isProvider 4 = true ∧
    addProvider 3 providerState 4 = Except.ok (providerState, []) ∧
    (∃ s', addProvider 3 sampleState 4
        = Except.ok (s', [Event.ProviderAdded 4]) ∧ s'.isProvider 4 = true) ∧
    (∃ s', removeProvider 3 providerState 4
        = Except.ok (s', [Event.ProviderRemoved 4]) ∧ s'.isProvider 4 = false) :=
  ⟨rfl,
   role_change_notifications.2.1 3 providerState 4 rfl rfl,
   role_change_notifications.1 3 sampleState 4 rfl rfl,
   role_change_notifications.2.2.1 3 providerState 4 rfl rfl⟩

/-- Success test for a modelled call: true when the call did not revert. -/
def callOk {α : Type} : Except Err α → Bool
  | Except.ok _ => true
  | Except.error _ => false

/-- C10: right after deployment the deployer is owner and provider, the
cooldown is the positive default 30, batch 1 is open and current, and the
deployer can immediately submit a document (given initialized handles and a
timestamp past the initial cooldown window) without any `addProvider` call. -/
theorem deploy_initial_roles_and_state
    (deployer : Addr) (now : Nat) (encId encContent : Euint32)
    (hnow : 30 ≤ now) (hid : encId.init = true) (hct : encContent.init = true) :
    (deploy deployer).1.owner = deployer ∧
    (deploy deployer).1.isProvider deployer = true ∧
    (deploy deployer).1.cooldownSeconds = 30 ∧
    (deploy deployer).1.currentBatchId = 1 ∧
    (deploy deployer).1.batches 1 = ⟨1, true⟩ ∧
    callOk (submitDocument deployer now (deploy deployer).1 encId encContent) = true := by
  have h1 : (deploy deployer).1.isProvider deployer = true := by
    simp [deploy, upd]
  have h2 : (deploy deployer).1.paused = false := rfl
  have h3 : ¬ now < (deploy deployer).1.lastSubmissionTime deployer
      + (deploy deployer).1.cooldownSeconds := by
    show ¬ now < 0 + 30
    omega
  have h4 : ((deploy deployer).1.batches (deploy deployer).1.currentBatchId).isOpen
      = true := by
    simp [deploy, upd]
  refine ⟨rfl, h1, rfl, rfl, by simp [deploy, upd], ?_⟩
  simp [submitDocument, h1, h2, h3, hid, hct, h4, callOk]

/-- C10 witness: deployer 3 at time 100 with trivially encrypted handles. -/
theorem deploy_initial_roles_witness :
    (deploy 3).1.owner = 3 ∧
    (deploy 3).1.isProvider 3 = true ∧
    (deploy 3).1.cooldownSeconds = 30 ∧
    (deploy 3).1.currentBatchId = 1 ∧
    (deploy 3).1.batches 1 = ⟨1, true⟩ ∧
    callOk (submitDocument 3 100 (deploy 3).1 (FHE.asEuint32 1) (FHE.asEuint32 2))
      = true :=
  deploy_initial_roles_and_state 3 100 (FHE.asEuint32 1) (FHE.asEuint32 2)
    (by decide) rfl rfl

end LegalDiscoveryFhe
